import Mathlib

/-!
Verification of the installer-analytics setup wizard (src/main.rs).

The Rust source is shallowly embedded: Rust `String` values become `List Char`
(`Str` below), the case-insensitive substring checks of `process_log_line`
become `containsSub` over lowercased char lists, `f64` progress arithmetic —
which only ever produces small dyadic rationals here, where `f64` is exact —
becomes `ℚ`, and the `tokio::select!` dual-stream drain loop becomes an
explicit step function driven by a schedule of branch choices (`true` =
the stdout branch completed first, `false` = the stderr branch).
-/

namespace InstallerAnalytics

/-- Rust strings are modelled as lists of characters. -/
abbrev Str := List Char

/-- `str::to_lowercase` (the lines classified here are ASCII). -/
def toLowerStr (s : Str) : Str := s.map Char.toLower

/-- `str::contains` for a substring pattern: the needle is a prefix of some
suffix of the haystack. -/
def containsSub : Str → Str → Bool
  | [], needle => needle.isEmpty
  | a :: t, needle => needle.isPrefixOf (a :: t) || containsSub t needle

/-- Whitespace test used by `str::trim`. -/
def isWs (ch : Char) : Bool := ch.isWhitespace

/-- `str::trim`: drop leading and trailing whitespace. -/
def trimStr (s : Str) : Str := ((s.dropWhile isWs).reverse.dropWhile isWs).reverse

/-- `str::starts_with`. -/
def startsWithStr (s p : Str) : Bool := p.isPrefixOf s

/-- The `"sk-"` key prefix required by `FormData::validate`. -/
def skPrefix : Str := "sk-".data

/-- Error text of `FormData::validate` when the key is blank. -/
def reqMsg : Str := "OpenAI API Key is required!".data

/-- Error text of `FormData::validate` when the key lacks the `sk-` prefix. -/
def fmtMsg : Str := "Invalid OpenAI API Key format (should start with 'sk-')".data

/-- The `FormData` struct from src/main.rs. -/
structure FormData where
  openai_api_key : Str
  generation_model : Str
  host_port : Str
  ai_service_port : Str
  current_field : Nat
  editing : Bool
  error_message : Str
deriving DecidableEq

/-- `FormData::new`. -/
def FormData.new : FormData :=
  { openai_api_key := []
    generation_model := "gpt-4o-mini".data
    host_port := "3000".data
    ai_service_port := "5555".data
    current_field := 0
    editing := false
    error_message := [] }

/-- `FormData::validate`: returns whether validation passed together with the
mutated form (the Rust method mutates `error_message` in place). -/
def FormData.validate (fd : FormData) : Bool × FormData :=
  if (trimStr fd.openai_api_key).isEmpty then
    (false, { fd with error_message := reqMsg })
  else if !(startsWithStr fd.openai_api_key skPrefix) then
    (false, { fd with error_message := fmtMsg })
  else
    (true, { fd with error_message := [] })

/-- The `MenuSelection` enum. -/
inductive MenuSelection
  | proceed
  | generateEnv
  | generateConfig
  | cancel
deriving DecidableEq

/-- The `AppState` enum. -/
inductive AppState
  | confirmation
  | envSetup
  | installing
  | success
  | error (msg : Str)
deriving DecidableEq

/-- Which menu options are offered, as rendered by `render_confirmation`:
Generate .env iff the env file is missing, Generate config.yaml iff the config
file is missing, Proceed iff both files exist, Cancel always. -/
def selectable (env_exists config_exists : Bool) : MenuSelection → Bool
  | .proceed => env_exists && config_exists
  | .generateEnv => !env_exists
  | .generateConfig => !config_exists
  | .cancel => true

/-- The `KeyCode::Up` arm of `handle_confirmation_events`. -/
def moveUp (env_exists config_exists : Bool) : MenuSelection → MenuSelection
  | .proceed =>
      if !config_exists then .generateConfig
      else if !env_exists then .generateEnv
      else .cancel
  | .generateEnv => .cancel
  | .generateConfig => if !env_exists then .generateEnv else .cancel
  | .cancel =>
      if env_exists && config_exists then .proceed
      else if !config_exists then .generateConfig
      else .generateEnv

/-- The `KeyCode::Down | KeyCode::Tab` arm of `handle_confirmation_events`. -/
def moveDown (env_exists config_exists : Bool) : MenuSelection → MenuSelection
  | .proceed => .cancel
  | .generateEnv => if !config_exists then .generateConfig else .cancel
  | .generateConfig => .cancel
  | .cancel =>
      if !env_exists then .generateEnv
      else if !config_exists then .generateConfig
      else .proceed

/-- A navigation intent in the Confirmation state. -/
inductive MoveDir
  | up
  | down
deriving DecidableEq

/-- Apply one navigation intent. -/
def applyMove (env_exists config_exists : Bool) (sel : MenuSelection) : MoveDir → MenuSelection
  | .up => moveUp env_exists config_exists sel
  | .down => moveDown env_exists config_exists sel

/-- Apply a sequence of navigation intents. -/
def applyMoves (env_exists config_exists : Bool) : MenuSelection → List MoveDir → MenuSelection
  | sel, [] => sel
  | sel, d :: ds => applyMoves env_exists config_exists (applyMove env_exists config_exists sel d) ds

/-- The `Ctrl+S` (submit-all) arm of `handle_form_events`: validate, and return
`some true` (accepted) only when validation passes; otherwise the handler
returns `None` to the run loop. -/
def submitForm (fd : FormData) : FormData × Option Bool :=
  let v := fd.validate
  (v.2, if v.1 then some true else none)

/-- The EnvSetup arm of `App::run` for the submit-all intent, with the env-file
write modelled as succeeding: `None` from the handler leaves the state
unchanged, `Some _` leaves EnvSetup. -/
def envSetupSubmit (fd : FormData) : AppState × FormData :=
  match submitForm fd with
  | (fd', none) => (.envSetup, fd')
  | (fd', some _) => (.confirmation, fd')

/-- Decimal rendering of a number interpolated by `format!`. -/
def natStr (n : Nat) : Str := (Nat.repr n).data

/-- The fields of `App` touched by the progress estimator and logger. -/
structure AppSt where
  logs : List Str
  progress : ℚ
  current_service : Str
  total_services : Nat
  completed_services : Nat
deriving DecidableEq

/-- `App::add_log` on the raw log list: push, then drop the oldest entry when
the length exceeds 100. -/
def addLogList (logs : List Str) (message : Str) : List Str :=
  let l := logs ++ [message]
  if l.length > 100 then l.drop 1 else l

/-- `App::add_log`. -/
def AppSt.add_log (st : AppSt) (message : Str) : AppSt :=
  { st with logs := addLogList st.logs message }

/-- Fold `App::add_log` over a sequence of messages. -/
def addLogs (logs : List Str) (msgs : List Str) : List Str := msgs.foldl addLogList logs

/-- The estimator fields of `App::new`: empty logs, progress 0, no current
service, 4 total services, 0 completed. -/
def initApp : AppSt :=
  { logs := [], progress := 0, current_service := [], total_services := 4
    completed_services := 0 }

/-- Keywords matched (on the lowercased line) by `process_log_line`. -/
def kwPulling : Str := "pulling".data

/-- See `kwPulling`. -/
def kwPulled : Str := "pulled".data

/-- See `kwPulling`. -/
def kwCreating : Str := "creating".data

/-- See `kwPulling`. -/
def kwCreated : Str := "created".data

/-- See `kwPulling`. -/
def kwStarting : Str := "starting".data

/-- See `kwPulling`. -/
def kwStarted : Str := "started".data

/-- See `kwPulling`. -/
def kwRunning : Str := "running".data

/-- See `kwPulling`. -/
def kwError : Str := "error".data

/-- See `kwPulling`. -/
def kwFailed : Str := "failed".data

/-- The four allow-listed service identifiers of `extract_service_name`. -/
def svcAnalyticsService : Str := "analytics-service".data

/-- See `svcAnalyticsService`. -/
def svcQdrant : Str := "qdrant".data

/-- See `svcAnalyticsService`. -/
def svcNorthwindDb : Str := "northwind-db".data

/-- See `svcAnalyticsService`. -/
def svcAnalyticsUi : Str := "analytics-ui".data

/-- The allow-list, in source order. -/
def services : List Str := [svcAnalyticsService, svcQdrant, svcNorthwindDb, svcAnalyticsUi]

/-- `App::extract_service_name`: first allow-listed identifier contained
(case-insensitively) in the line. -/
def extract_service_name (line : Str) : Option Str :=
  services.find? (fun service => containsSub (toLowerStr line) service)

/-- The semantic events distinguished by the branch structure of
`process_log_line`. -/
inductive LogEvent
  | imagePullStarted (service : Str)
  | imagePulled
  | containerCreateStarted (service : Str)
  | containerCreated
  | serviceStartStarted (service : Str)
  | serviceStarted
  | serviceRunning
  | failure (line : Str)
  | informational (line : Str)
deriving DecidableEq

/-- The decision structure of `process_log_line`: which branch fires for a
line, in the source's priority order. The pulling/creating/starting branches
produce no event when no allow-listed service is found (the Rust `if let`
silently falls through). -/
def classify (line : Str) : Option LogEvent :=
  let lower := toLowerStr line
  if containsSub lower kwPulling then
    (extract_service_name line).map LogEvent.imagePullStarted
  else if containsSub lower kwPulled then some .imagePulled
  else if containsSub lower kwCreating then
    (extract_service_name line).map LogEvent.containerCreateStarted
  else if containsSub lower kwCreated then some .containerCreated
  else if containsSub lower kwStarting then
    (extract_service_name line).map LogEvent.serviceStartStarted
  else if containsSub lower kwStarted then some .serviceStarted
  else if containsSub lower kwRunning then some .serviceRunning
  else if containsSub lower kwError || containsSub lower kwFailed then some (.failure line)
  else if !(trimStr line).isEmpty then some (.informational line)
  else none

/-- The state mutations done by each branch of `process_log_line`. -/
def applyEvent (st : AppSt) : Option LogEvent → AppSt
  | none => st
  | some (.imagePullStarted service) =>
      AppSt.add_log { st with current_service := service }
        ("⬇️  Pulling image for ".data ++ service ++ "...".data)
  | some .imagePulled => st.add_log ("✓ Image pulled".data)
  | some (.containerCreateStarted service) =>
      AppSt.add_log { st with current_service := service }
        ("🔨 Creating container ".data ++ service ++ "...".data)
  | some .containerCreated => st.add_log ("✓ Container created".data)
  | some (.serviceStartStarted service) =>
      AppSt.add_log { st with current_service := service }
        ("▶️  Starting service ".data ++ service ++ "...".data)
  | some .serviceStarted =>
      let completed := st.completed_services + 1
      AppSt.add_log
        { st with
            completed_services := completed
            progress := 50 + ((completed : ℚ) / (st.total_services : ℚ)) * 50 }
        ("✅ Service started (".data ++ natStr completed ++ "/".data
          ++ natStr st.total_services ++ ")".data)
  | some .serviceRunning => st.add_log ("🟢 Service is running".data)
  | some (.failure line) => st.add_log ("❌ ".data ++ line)
  | some (.informational line) => st.add_log ("ℹ️  ".data ++ line)

/-- `App::process_log_line`, as the composition of its branch decision and the
branch bodies. -/
def process_log_line (st : AppSt) (line : Str) : AppSt := applyEvent st (classify line)

/-- Feed a sequence of raw output lines through `process_log_line`. -/
def processLines (st : AppSt) (lines : List Str) : AppSt := lines.foldl process_log_line st

/-- One item yielded by `next_line()` on a captured stream before end-of-input:
either a successful line or a read error. -/
inductive StreamItem
  | line (s : Str)
  | readErr (e : Str)
deriving DecidableEq

/-- How a run of the stream-draining loop ended: `eofBreak` via the
`Ok(None) => break` arm, `errBreak` via the `Err(e) => ... break` arm,
`pending` when the modelled schedule ran out while the loop would continue. -/
inductive DrainStatus
  | eofBreak
  | errBreak
  | pending
deriving DecidableEq

/-- Result of the drain loop: the app state, what remains unread on each
stream, and how the loop ended. -/
structure DrainResult where
  st : AppSt
  outRest : List StreamItem
  errRest : List StreamItem
  status : DrainStatus
deriving DecidableEq

/-- Log text of the `Err` arm on the stdout branch. -/
def stdoutReadErrMsg (e : Str) : Str := "❌ Error reading stdout: ".data ++ e

/-- Log text of the `Err` arm on the stderr branch. -/
def stderrReadErrMsg (e : Str) : Str := "❌ Error reading stderr: ".data ++ e

/-- The `loop { tokio::select! { ... } }` of `run_docker_compose`. Each
schedule entry picks the branch whose future completes first (`true` =
stdout). The chosen stream yields its next item: a line is routed through
`process_log_line` and the loop continues; end-of-input (`Ok(None)`) breaks
the loop; a read error is logged and breaks the loop. -/
def drainLoop : List Bool → List StreamItem → List StreamItem → AppSt → DrainResult
  | [], outS, errS, st => ⟨st, outS, errS, .pending⟩
  | true :: cs, outS, errS, st =>
      match outS with
      | [] => ⟨st, [], errS, .eofBreak⟩
      | .line s :: rest => drainLoop cs rest errS (process_log_line st s)
      | .readErr e :: rest => ⟨st.add_log (stdoutReadErrMsg e), rest, errS, .errBreak⟩
  | false :: cs, outS, errS, st =>
      match errS with
      | [] => ⟨st, outS, [], .eofBreak⟩
      | .line s :: rest => drainLoop cs outS rest (process_log_line st s)
      | .readErr e :: rest => ⟨st.add_log (stderrReadErrMsg e), outS, rest, .errBreak⟩

/-- `SubprocessOutcome`: `run_docker_compose` returns `Ok(())` or an error
message. -/
inductive Outcome
  | success
  | failure (msg : Str)
deriving DecidableEq

/-- Result of `run_docker_compose`: final app state, outcome, and whether the
start-phase (`docker compose up -d`) command was ever spawned. -/
structure RunResult where
  st : AppSt
  outcome : Outcome
  startSpawned : Bool
deriving DecidableEq

/-- Direct assignment to `self.progress`. -/
def AppSt.setProgress (st : AppSt) (p : ℚ) : AppSt := { st with progress := p }

/-- Error text for a failed build phase. -/
def buildFailMsg : Str := "Docker Compose build failed".data

/-- Error text for a failed start phase. -/
def upFailMsg : Str := "Docker Compose up failed".data

/-- `App::run_docker_compose`. The two subprocesses are modelled by the
contents of their two output streams, a schedule of select choices for each
drain loop, and a boolean exit status (`true` = `status.success()`); spawn
and wait are assumed not to error at the OS level. -/
def run_docker_compose (st : AppSt)
    (buildSched : List Bool) (buildOut buildErr : List StreamItem) (buildExitOk : Bool)
    (upSched : List Bool) (upOut upErr : List StreamItem) (upExitOk : Bool) : RunResult :=
  let st1 :=
    AppSt.add_log (st.add_log ("🔨 Step 1/2: Building images (no cache)...".data))
      ("📦 Executing: docker compose build --no-cache".data)
  let d1 := drainLoop buildSched buildOut buildErr st1
  if !buildExitOk then ⟨d1.st, .failure buildFailMsg, false⟩
  else
    let st2 := (d1.st.add_log ("✅ Build completed successfully!".data)).setProgress 50
    let st3 :=
      AppSt.add_log (st2.add_log ("🚀 Step 2/2: Starting services...".data))
        ("📦 Executing: docker compose up -d".data)
    let d2 := drainLoop upSched upOut upErr st3
    if upExitOk then
      ⟨(d2.st.add_log ("✅ All services started successfully!".data)).setProgress 100,
        .success, true⟩
    else ⟨d2.st, .failure upFailMsg, true⟩

/-- A raw output line that hits the `started` branch. -/
def startedLine : Str := "started".data

/-- The app state at the start of the build drain loop: `initApp` after the
two announcement logs of `run_docker_compose`. -/
def buildPhaseStart : AppSt :=
  AppSt.add_log (initApp.add_log ("🔨 Step 1/2: Building images (no cache)...".data))
    ("📦 Executing: docker compose build --no-cache".data)

/-- An arbitrary ordinary output line. -/
def sampleLine : Str := "hello".data

/-- An arbitrary read-error message. -/
def boomMsg : Str := "boom".data

/-- A typical start line for the qdrant service. -/
def qdrantLine : Str := "Starting qdrant".data

/-- A line containing both a higher-priority keyword and "Starting qdrant". -/
def pullingStartingLine : Str := "Pulling Starting qdrant".data

/-- A starting line that mentions two allow-listed services. -/
def startingBothLine : Str := "Starting analytics-service qdrant".data

/-- A starting line mentioning no allow-listed service. -/
def startingFooLine : Str := "Starting foo".data

/-- A form whose key lacks the `sk-` prefix. -/
def fdBad : FormData := { FormData.new with openai_api_key := "abc".data }

/-- A form with a well-formed key. -/
def fdGood : FormData := { FormData.new with openai_api_key := "sk-x".data }

/-- `add_log` changes only the log buffer. -/
theorem add_log_progress (st : AppSt) (m : Str) : (st.add_log m).progress = st.progress := rfl

/-- See `add_log_progress`. -/
theorem add_log_completed (st : AppSt) (m : Str) :
    (st.add_log m).completed_services = st.completed_services := rfl

/-- See `add_log_progress`. -/
theorem add_log_total (st : AppSt) (m : Str) :
    (st.add_log m).total_services = st.total_services := rfl

/-- A line hitting the `started` branch recomputes progress from the
incremented completed count — with the start-phase base 50, whatever the
phase. -/
theorem progress_process_started (st : AppSt) (line : Str)
    (h : classify line = some LogEvent.serviceStarted) :
    (process_log_line st line).progress =
      50 + ((st.completed_services + 1 : ℕ) : ℚ) / (st.total_services : ℚ) * 50 ∧
    (process_log_line st line).completed_services = st.completed_services + 1 ∧
    (process_log_line st line).total_services = st.total_services := by
  unfold process_log_line
  rw [h]
  unfold applyEvent
  refine ⟨?_, rfl, rfl⟩
  push_cast
  rfl

/-- C1 counterexample: in the build-phase starting state (progress 0, 0
completed), one output line hitting the `started` branch sets progress to
62.5 — not the claimed `0 + (1/4)*50 = 12.5`, and outside the first half of
the bar. -/
theorem c1_counterexample :
    (process_log_line buildPhaseStart startedLine).progress = 125 / 2 ∧
    (process_log_line buildPhaseStart startedLine).progress ≠
      0 + ((buildPhaseStart.completed_services + 1 : ℕ) : ℚ)
        / (buildPhaseStart.total_services : ℚ) * 50 ∧
    ¬ (process_log_line buildPhaseStart startedLine).progress ≤ 50 := by
  have h := (progress_process_started buildPhaseStart startedLine (by decide)).1
  have hc : buildPhaseStart.completed_services = 0 := rfl
  have ht : buildPhaseStart.total_services = 4 := rfl
  rw [h, hc, ht]
  norm_num

/-- C1 (amended): `process_log_line` applies the same formula in every phase —
a `started` line sets the percentage to `50 + ((completed+1)/total)*50`, and
every other line leaves the percentage unchanged; there is no build-phase base
of 0, so build-phase ServiceStarted events land in the second half of the
scale. -/
theorem c1_amended_progress_formula (st : AppSt) (line : Str) :
    (classify line = some LogEvent.serviceStarted →
      (process_log_line st line).progress =
        50 + ((st.completed_services + 1 : ℕ) : ℚ) / (st.total_services : ℚ) * 50) ∧
    (classify line ≠ some LogEvent.serviceStarted →
      (process_log_line st line).progress = st.progress) := by
  constructor
  · intro h
    exact (progress_process_started st line h).1
  · intro h
    unfold process_log_line
    rcases hcl : classify line with _ | ev
    · rfl
    · cases ev with
      | serviceStarted => exact absurd hcl h
      | imagePullStarted s => simp [applyEvent, AppSt.add_log]
      | imagePulled => simp [applyEvent, AppSt.add_log]
      | containerCreateStarted s => simp [applyEvent, AppSt.add_log]
      | containerCreated => simp [applyEvent, AppSt.add_log]
      | serviceStartStarted s => simp [applyEvent, AppSt.add_log]
      | serviceRunning => simp [applyEvent, AppSt.add_log]
      | failure l => simp [applyEvent, AppSt.add_log]
      | informational l => simp [applyEvent, AppSt.add_log]

/-- C1 witness: the amended formula evaluated on a concrete build-phase
state and line. -/
theorem c1_witness :
    (process_log_line buildPhaseStart startedLine).progress =
      50 + ((buildPhaseStart.completed_services + 1 : ℕ) : ℚ)
        / (buildPhaseStart.total_services : ℚ) * 50 :=
  (c1_amended_progress_formula buildPhaseStart startedLine).1 (by decide)

/-- C2 counterexample: with stdout already at end-of-input and one line still
pending on stderr, a schedule that polls the stdout branch breaks the loop by
`eofBreak` while the stderr line remains undrained. -/
theorem c2_counterexample :
    (drainLoop [true] [] [StreamItem.line sampleLine] initApp).status = DrainStatus.eofBreak ∧
    (drainLoop [true] [] [StreamItem.line sampleLine] initApp).errRest ≠ [] := by decide

/-- C2 (amended): the drain loop exits at the FIRST end-of-input observed on
whichever stream the select polls — when it breaks via the `Ok(None)` arm, at
least one of the two streams is exhausted, but lines may remain unread on the
other; it does not continue until both streams have ended. -/
theorem c2_amended_drain_first_eof (sched : List Bool) :
    ∀ (outS errS : List StreamItem) (st : AppSt),
      (drainLoop sched outS errS st).status = DrainStatus.eofBreak →
      (drainLoop sched outS errS st).outRest = [] ∨
        (drainLoop sched outS errS st).errRest = [] := by
  induction sched with
  | nil =>
    intro outS errS st h
    simp [drainLoop] at h
  | cons c cs ih =>
    intro outS errS st h
    cases c
    · cases errS with
      | nil => right; simp [drainLoop]
      | cons i rest =>
        cases i with
        | line s => exact ih outS rest (process_log_line st s) h
        | readErr e => simp [drainLoop] at h
    · cases outS with
      | nil => left; simp [drainLoop]
      | cons i rest =>
        cases i with
        | line s => exact ih rest errS (process_log_line st s) h
        | readErr e => simp [drainLoop] at h

/-- C2 witness: the amended statement at a concrete schedule and streams. -/
theorem c2_witness :
    (drainLoop [true] [] [StreamItem.line sampleLine] initApp).outRest = [] ∨
      (drainLoop [true] [] [StreamItem.line sampleLine] initApp).errRest = [] :=
  c2_amended_drain_first_eof [true] [] [StreamItem.line sampleLine] initApp (by decide)

/-- C3: a build phase whose process exits unsuccessfully makes
`run_docker_compose` return the build failure, and the start-phase command is
never spawned — for every stream content and schedule. -/
theorem c3_build_failure_aborts (st : AppSt) (buildSched : List Bool)
    (buildOut buildErr : List StreamItem) (upSched : List Bool)
    (upOut upErr : List StreamItem) (upExitOk : Bool) :
    (run_docker_compose st buildSched buildOut buildErr false
        upSched upOut upErr upExitOk).outcome = Outcome.failure buildFailMsg ∧
    (run_docker_compose st buildSched buildOut buildErr false
        upSched upOut upErr upExitOk).startSpawned = false := by
  unfold run_docker_compose
  simp

/-- C4 counterexample: a read error on the build stdout stream is logged, but
with both subprocesses exiting successfully the overall outcome is Success —
the read error does not force a Failure outcome. -/
theorem c4_counterexample :
    (run_docker_compose initApp [true] [StreamItem.readErr boomMsg] [] true
        [] [] [] true).outcome = Outcome.success ∧
    stdoutReadErrMsg boomMsg ∈
      (run_docker_compose initApp [true] [StreamItem.readErr boomMsg] [] true
        [] [] [] true).st.logs := by decide

/-- C4 (amended): a read error stops further streaming for that invocation and
is logged, but the invocation's outcome is determined solely by the two exit
statuses — failure of build when the build exit is non-zero, else failure of
up when the up exit is non-zero, else success — regardless of stream contents,
schedules, or read errors. -/
theorem c4_amended_outcome_from_exit (st : AppSt) (buildSched : List Bool)
    (buildOut buildErr : List StreamItem) (buildExitOk : Bool) (upSched : List Bool)
    (upOut upErr : List StreamItem) (upExitOk : Bool) :
    (run_docker_compose st buildSched buildOut buildErr buildExitOk
        upSched upOut upErr upExitOk).outcome =
      if buildExitOk then
        (if upExitOk then Outcome.success else Outcome.failure upFailMsg)
      else Outcome.failure buildFailMsg := by
  cases buildExitOk <;> cases upExitOk <;> simp [run_docker_compose]

/-- Effect of a run of `n` lines hitting the `started` branch: the completed
count grows by `n`, and (once at least one event was seen) progress is the
start-phase formula applied to the final count, with no clamping. -/
theorem processLines_started : ∀ (n : Nat) (st : AppSt),
    (processLines st (List.replicate n startedLine)).completed_services
        = st.completed_services + n ∧
    (processLines st (List.replicate n startedLine)).total_services = st.total_services ∧
    (1 ≤ n → (processLines st (List.replicate n startedLine)).progress =
      50 + ((st.completed_services + n : ℕ) : ℚ) / (st.total_services : ℚ) * 50) := by
  intro n
  induction n with
  | zero => intro st; simp [processLines]
  | succ k ih =>
    intro st
    have hstep := progress_process_started st startedLine (by decide)
    have hfold : processLines st (List.replicate (k + 1) startedLine)
        = processLines (process_log_line st startedLine) (List.replicate k startedLine) := rfl
    obtain ⟨ihc, iht, ihp⟩ := ih (process_log_line st startedLine)
    refine ⟨?_, ?_, ?_⟩
    · rw [hfold, ihc, hstep.2.1]; omega
    · rw [hfold, iht, hstep.2.2]
    · intro _
      rcases Nat.eq_zero_or_pos k with hk | hk
      · subst hk
        rw [hfold]
        show (process_log_line st startedLine).progress = _
        rw [hstep.1]
      · rw [hfold, ihp hk, hstep.2.1, hstep.2.2]
        push_cast
        ring

/-- C5 counterexample: after five ServiceStarted events the percentage is
112.5 — not the claimed `50 + (min 5 4 / 4) * 50 = 100`, and outside
`[0, 100]`. -/
theorem c5_counterexample :
    (processLines initApp (List.replicate 5 startedLine)).progress = 225 / 2 ∧
    (processLines initApp (List.replicate 5 startedLine)).progress ≠
      50 + (min (5 : ℚ) 4) / 4 * 50 ∧
    ¬ (processLines initApp (List.replicate 5 startedLine)).progress ≤ 100 := by
  have h := (processLines_started 5 initApp).2.2 (by norm_num)
  have hc : initApp.completed_services = 0 := rfl
  have ht : initApp.total_services = 4 := rfl
  rw [hc, ht] at h
  rw [h]
  norm_num

/-- C5 (amended): after a nonempty sequence of `n` ServiceStarted events from
the initial estimator state, the percentage is exactly `50 + (n/total)*50`
with no `min` clamp, so once more than the 4 total services have been observed
the percentage exceeds 100. -/
theorem c5_amended_progress_no_clamp (n : Nat) (h : 1 ≤ n) :
    (processLines initApp (List.replicate n startedLine)).completed_services = n ∧
    (processLines initApp (List.replicate n startedLine)).progress = 50 + (n : ℚ) / 4 * 50 ∧
    (4 < n → 100 < (processLines initApp (List.replicate n startedLine)).progress) := by
  obtain ⟨hc, -, hp⟩ := processLines_started n initApp
  have hc0 : initApp.completed_services = 0 := rfl
  have ht0 : initApp.total_services = 4 := rfl
  rw [hc0] at hc
  rw [hc0, ht0] at hp
  have hp' := hp h
  have hcast : ((0 + n : ℕ) : ℚ) = (n : ℚ) := by push_cast; ring
  rw [hcast] at hp'
  have hden : ((4 : ℕ) : ℚ) = 4 := by norm_num
  rw [hden] at hp'
  refine ⟨by omega, hp', ?_⟩
  intro h4
  rw [hp']
  have h4q : (4 : ℚ) < (n : ℚ) := by exact_mod_cast h4
  nlinarith

/-- C5 witness: the amended statement evaluated at five events. -/
theorem c5_witness :
    (processLines initApp (List.replicate 5 startedLine)).completed_services = 5 ∧
    (processLines initApp (List.replicate 5 startedLine)).progress = 50 + (5 : ℚ) / 4 * 50 ∧
    (4 < 5 → 100 < (processLines initApp (List.replicate 5 startedLine)).progress) :=
  c5_amended_progress_no_clamp 5 (by norm_num)

/-- Dropping the head commutes with appending on the right for a nonempty
list. -/
theorem drop_one_append {α : Type} (l₁ l₂ : List α) (h : l₁ ≠ []) :
    l₁.drop 1 ++ l₂ = (l₁ ++ l₂).drop 1 := by
  cases l₁ with
  | nil => exact absurd rfl h
  | cons a as => simp

/-- Closed form of folding `add_log`: starting from a buffer within the cap,
the result is the concatenation with everything but the newest 100 entries
dropped from the front. -/
theorem addLogs_eq_drop : ∀ (msgs logs : List Str), logs.length ≤ 100 →
    addLogs logs msgs = (logs ++ msgs).drop (logs.length + msgs.length - 100) := by
  intro msgs
  induction msgs with
  | nil =>
    intro logs h
    simp only [addLogs, List.foldl_nil, List.append_nil, List.length_nil, Nat.add_zero]
    rw [Nat.sub_eq_zero_of_le h, List.drop_zero]
  | cons m ms ih =>
    intro logs h
    have hstep : addLogs logs (m :: ms) = addLogs (addLogList logs m) ms := rfl
    by_cases hl : logs.length = 100
    · have h1 : addLogList logs m = (logs ++ [m]).drop 1 := by
        show (if (logs ++ [m]).length > 100 then (logs ++ [m]).drop 1 else logs ++ [m])
          = (logs ++ [m]).drop 1
        rw [if_pos (by simp [hl])]
      have hlen : ((logs ++ [m]).drop 1).length = 100 := by
        simp [hl]
      rw [hstep, h1, ih _ (le_of_eq hlen), hlen, Nat.add_sub_cancel_left,
        drop_one_append (logs ++ [m]) ms (by simp), List.drop_drop]
      have hassoc : logs ++ [m] ++ ms = logs ++ m :: ms := by simp
      rw [hassoc]
      congr 1
      simp only [List.length_cons]
      omega
    · have h1 : addLogList logs m = logs ++ [m] := by
        show (if (logs ++ [m]).length > 100 then (logs ++ [m]).drop 1 else logs ++ [m])
          = logs ++ [m]
        rw [if_neg (by simp; omega)]
      have hlen : (logs ++ [m]).length ≤ 100 := by simp; omega
      rw [hstep, h1, ih _ hlen]
      have hassoc : logs ++ [m] ++ ms = logs ++ m :: ms := by simp
      rw [hassoc]
      congr 1
      simp only [List.length_append, List.length_cons, List.length_nil]
      omega

/-- C6: the log buffer produced by any sequence of `add_log` appends from the
initially empty buffer never exceeds 100 entries, and equals exactly the
newest 100 lines in oldest-first order (for 150 appends, the last 100); each
insertion appends at the end and eviction drops the oldest entry. -/
theorem c6_logbuffer_fifo (msgs : List Str) :
    (addLogs [] msgs).length ≤ 100 ∧
    addLogs [] msgs = msgs.drop (msgs.length - 100) := by
  have h := addLogs_eq_drop msgs [] (by simp)
  simp at h
  refine ⟨?_, h⟩
  rw [h]
  simp
  omega

/-- Every single navigation step in Confirmation lands on a currently offered
option, for each of the 32 combinations of file-presence booleans, current
selection, and direction. -/
theorem step_preserves_selectable : ∀ (e c : Bool) (sel : MenuSelection) (d : MoveDir),
    selectable e c (applyMove e c sel d) = true := by
  intro e c sel d
  cases e <;> cases c <;> cases sel <;> cases d <;> decide

/-- C7: starting from a selectable option with the two file-presence booleans
fixed, no sequence of Up/Down navigation intents ever makes the menu selection
an option whose file-presence condition makes it unavailable. -/
theorem c7_navigation_stays_selectable (e c : Bool) (sel : MenuSelection)
    (moves : List MoveDir) (h : selectable e c sel = true) :
    selectable e c (applyMoves e c sel moves) = true := by
  induction moves generalizing sel with
  | nil => exact h
  | cons d ds ih => exact ih _ (step_preserves_selectable e c sel d)

/-- C7 witness: from Cancel with both files missing, one Up step stays on an
offered option. -/
theorem c7_witness :
    selectable false false MenuSelection.cancel = true ∧
    selectable false false (applyMoves false false MenuSelection.cancel [MoveDir.up]) = true :=
  ⟨by decide, c7_navigation_stays_selectable false false MenuSelection.cancel [MoveDir.up]
    (by decide)⟩

/-- The `sk-` prefix is a prefix of any key built from it. -/
theorem sk_isPrefix (t : Str) : startsWithStr (skPrefix ++ t) skPrefix = true := by
  have hsk : skPrefix = ['s', 'k', '-'] := rfl
  rw [startsWithStr, hsk]
  simp [List.isPrefixOf]

/-- A key starting with `sk-` does not trim to the empty string. -/
theorem trim_sk_isEmpty_false (t : Str) : (trimStr (skPrefix ++ t)).isEmpty = false := by
  have hsk : skPrefix = ['s', 'k', '-'] := rfl
  rw [hsk]
  show (trimStr ('s' :: 'k' :: '-' :: t)).isEmpty = false
  unfold trimStr
  have hws : isWs 's' = false := by decide
  have hdw : List.dropWhile isWs ('s' :: 'k' :: '-' :: t) = 's' :: 'k' :: '-' :: t := by
    rw [List.dropWhile_cons_of_neg (by simp [hws])]
  rw [hdw]
  have hne : (('s' :: 'k' :: '-' :: t).reverse.dropWhile isWs).reverse ≠ [] := by
    intro hc
    have h0 : ('s' :: 'k' :: '-' :: t).reverse.dropWhile isWs = [] := by
      have := congrArg List.reverse hc
      simpa using this
    rw [List.dropWhile_eq_nil_iff] at h0
    have hs : 's' ∈ ('s' :: 'k' :: '-' :: t).reverse := by simp
    exact absurd (h0 _ hs) (by decide)
  cases hcase : (('s' :: 'k' :: '-' :: t).reverse.dropWhile isWs).reverse with
  | nil => exact absurd hcase hne
  | cons a l => rfl

/-- C8: submitting the form with a key that does not start with `sk-` is
rejected (the handler returns no submit, the error message becomes non-empty,
and the wizard stays in EnvSetup), while submitting with `sk-` followed by a
nonempty suffix clears the error message and is accepted. -/
theorem c8_submit_validation (fd : FormData) :
    (startsWithStr fd.openai_api_key skPrefix = false →
      (submitForm fd).2 = none ∧ (submitForm fd).1.error_message ≠ [] ∧
      (envSetupSubmit fd).1 = AppState.envSetup) ∧
    (∀ s : Str, s ≠ [] → fd.openai_api_key = skPrefix ++ s →
      (submitForm fd).2 = some true ∧ (submitForm fd).1.error_message = []) := by
  constructor
  · intro h
    by_cases htrim : (trimStr fd.openai_api_key).isEmpty
    · simp [submitForm, envSetupSubmit, FormData.validate, htrim, reqMsg]
    · simp [submitForm, envSetupSubmit, FormData.validate, htrim, h, fmtMsg]
  · intro s _ hkey
    have hpre : startsWithStr fd.openai_api_key skPrefix = true := by
      rw [hkey]; exact sk_isPrefix s
    have htrim : (trimStr fd.openai_api_key).isEmpty = false := by
      rw [hkey]; exact trim_sk_isEmpty_false s
    simp [submitForm, FormData.validate, htrim, hpre]

/-- C8 witness: the theorem evaluated on a malformed key and on a well-formed
key. -/
theorem c8_witness :
    (submitForm fdBad).2 = none ∧ (submitForm fdBad).1.error_message ≠ [] ∧
    (envSetupSubmit fdBad).1 = AppState.envSetup ∧
    (submitForm fdGood).2 = some true ∧ (submitForm fdGood).1.error_message = [] := by
  have h1 := (c8_submit_validation fdBad).1 (by decide)
  have h2 := (c8_submit_validation fdGood).2 ("x".data) (by decide) (by decide)
  exact ⟨h1.1, h1.2.1, h1.2.2, h2.1, h2.2⟩

/-- C9 counterexample: two lines containing "Starting" and "qdrant"
(case-insensitively) that do NOT classify as ServiceStartStarted("qdrant") —
one also contains the higher-priority keyword "pulling", the other also
mentions the service "analytics-service", which precedes "qdrant" in the
allow-list. -/
theorem c9_counterexample :
    containsSub (toLowerStr pullingStartingLine) kwStarting = true ∧
    containsSub (toLowerStr pullingStartingLine) svcQdrant = true ∧
    classify pullingStartingLine = some (LogEvent.imagePullStarted svcQdrant) ∧
    classify pullingStartingLine ≠ some (LogEvent.serviceStartStarted svcQdrant) ∧
    containsSub (toLowerStr startingBothLine) kwStarting = true ∧
    containsSub (toLowerStr startingBothLine) svcQdrant = true ∧
    classify startingBothLine = some (LogEvent.serviceStartStarted svcAnalyticsService) ∧
    classify startingBothLine ≠ some (LogEvent.serviceStartStarted svcQdrant) := by decide

/-- C9 (amended): a line containing "starting" and "qdrant" (each
case-insensitively, anywhere) classifies as ServiceStartStarted with service
"qdrant" provided it contains none of the higher-priority keywords pulling,
pulled, creating, created, and does not mention the allow-list-earlier service
identifier "analytics-service". -/
theorem c9_amended_starting_qdrant (line : Str)
    (h1 : containsSub (toLowerStr line) kwPulling = false)
    (h2 : containsSub (toLowerStr line) kwPulled = false)
    (h3 : containsSub (toLowerStr line) kwCreating = false)
    (h4 : containsSub (toLowerStr line) kwCreated = false)
    (h5 : containsSub (toLowerStr line) kwStarting = true)
    (h6 : containsSub (toLowerStr line) svcAnalyticsService = false)
    (h7 : containsSub (toLowerStr line) svcQdrant = true) :
    classify line = some (LogEvent.serviceStartStarted svcQdrant) := by
  simp [classify, extract_service_name, services, List.find?, h1, h2, h3, h4, h5, h6, h7]

/-- C9 witness: the typical start line for qdrant. -/
theorem c9_witness : classify qdrantLine = some (LogEvent.serviceStartStarted svcQdrant) :=
  c9_amended_starting_qdrant qdrantLine (by decide) (by decide) (by decide) (by decide)
    (by decide) (by decide) (by decide)

/-- C10: a line whose taken branch is pulling, creating, or starting but that
mentions none of the four allow-listed services leaves the whole app state
untouched — no log line is appended, and the current-service label, progress,
and completed count are unchanged. -/
theorem c10_unknown_service_noop (st : AppSt) (line : Str)
    (hsvc : extract_service_name line = none)
    (hbranch :
      containsSub (toLowerStr line) kwPulling = true ∨
      (containsSub (toLowerStr line) kwPulling = false ∧
        containsSub (toLowerStr line) kwPulled = false ∧
        containsSub (toLowerStr line) kwCreating = true) ∨
      (containsSub (toLowerStr line) kwPulling = false ∧
        containsSub (toLowerStr line) kwPulled = false ∧
        containsSub (toLowerStr line) kwCreating = false ∧
        containsSub (toLowerStr line) kwCreated = false ∧
        containsSub (toLowerStr line) kwStarting = true)) :
    process_log_line st line = st := by
  unfold process_log_line
  rcases hbranch with h | ⟨h1, h2, h3⟩ | ⟨h1, h2, h3, h4, h5⟩
  · simp [classify, h, hsvc, applyEvent]
  · simp [classify, h1, h2, h3, hsvc, applyEvent]
  · simp [classify, h1, h2, h3, h4, h5, hsvc, applyEvent]

/-- C10 witness: a starting line naming no allow-listed service is a no-op on
the initial state. -/
theorem c10_witness :
    extract_service_name startingFooLine = none ∧
    process_log_line initApp startingFooLine = initApp :=
  ⟨by decide, c10_unknown_service_noop initApp startingFooLine (by decide) (by decide)⟩

end InstallerAnalytics
